import Mathlib

/-
Verification of the request/response translation logic of app.py
(a Streamlit UI wrapping the TSheets schedule_events REST API).

The Python code is shallowly embedded: dictionaries become insertion-ordered
association lists with Python assignment semantics, the mutable update of a
caller-supplied dictionary becomes explicit state passing (the function
returns the post-call dictionary alongside the request it builds), and the
HTTP layer is represented by the request value the code hands to the
requests library and by a response record the code inspects.
-/

namespace Timeto

/-- Scalar values the app stores in event dictionaries before serialisation. -/
inductive Value where
  | vInt (n : Int)
  | vStr (s : String)
  | vBool (b : Bool)
  | vIntList (l : List Int)
  | vNone
deriving DecidableEq, Repr

/-- A Python dict with string keys, as an insertion-ordered association list
(no duplicate keys arise in the embedded code paths). -/
abbrev Dict := List (String × Value)

/-- Python dict lookup, first (and only) binding wins. -/
def Dict.lookup (d : Dict) (k : String) : Option Value :=
  match d with
  | [] => none
  | (k', v) :: rest => if k' = k then some v else Dict.lookup rest k

/-- Python assignment d[k] = v: overwrite in place when the key exists,
otherwise append at the end (insertion-order semantics). -/
def Dict.set (d : Dict) (k : String) (v : Value) : Dict :=
  match d with
  | [] => [(k, v)]
  | (k', v') :: rest => if k' = k then (k', v) :: rest else (k', v') :: Dict.set rest k v

/-- Key list of a dict, in insertion order. -/
def Dict.keys (d : Dict) : List String := d.map Prod.fst

/-- Python comprehension dropping None values:
x7bk: v for k, v in d.items() if v is not Nonex7d. -/
def Dict.dropNone (d : Dict) : Dict := d.filter (fun kv => kv.2 != Value.vNone)

/-- Base URL constant from app.py line 8. -/
def API_BASE_URL : String := "https://rest.tsheets.com/api/v1"

/-- Fixed calendar id constant from app.py line 10. -/
def SCHEDULE_CALENDAR_ID : Int := 563646

/-- HTTP methods used by the app. -/
inductive Method where
  | get
  | post
  | put
deriving DecidableEq, Repr

/-- JSON body shape the app sends on POST and PUT:
x7bdata: [...], team_events: "base"x7d. -/
structure Payload where
  data : List Dict
  team_events : String
deriving DecidableEq, Repr

/-- An outbound HTTP request as handed to the requests library: method, URL,
query parameters (GET) and JSON body (POST/PUT). -/
structure Request where
  method : Method
  url : String
  params : List (String × String)
  body : Option Payload
deriving DecidableEq, Repr

/-- Lookup in the query-parameter association list. -/
def qlookup (ps : List (String × String)) (k : String) : Option String :=
  match ps with
  | [] => none
  | (k', v) :: rest => if k' = k then some v else qlookup rest k

/-- Request built by fetch_schedule_events (app.py lines 30 to 42): a GET on
schedule_events with the two timestamps passed through verbatim, the fixed
calendar id and supplemental_data = "yes". -/
def fetch_schedule_events_request (startTs endTs : String) : Request :=
  { method := Method.get
    url := API_BASE_URL ++ "/schedule_events"
    params := [("start", startTs), ("end", endTs),
               ("schedule_calendar_ids", toString SCHEDULE_CALENDAR_ID),
               ("supplemental_data", "yes")]
    body := none }

/-- A parsed JSON document, for modelling response.json(). -/
inductive Json where
  | null
  | b (x : Bool)
  | num (n : Int)
  | str (s : String)
  | arr (xs : List Json)
  | obj (kvs : List (String × Json))

/-- An HTTP response as the app observes it: status_code, parsed JSON body
and raw text body. -/
structure HttpResponse where
  status_code : Nat
  json : Json
  text : String

/-- Outcome of fetch_schedule_events: either the parsed JSON body, or the
error path (st.error with status and raw text, returning None). -/
inductive FetchResult where
  | ok (j : Json)
  | err (status : Nat) (body : String)

/-- Response handling of fetch_schedule_events (app.py lines 43 to 47):
on status 200 return response.json(); otherwise surface the status code and
raw text and return no data. -/
def fetch_schedule_events_result (resp : HttpResponse) : FetchResult :=
  if resp.status_code = 200 then FetchResult.ok resp.json
  else FetchResult.err resp.status_code resp.text

/-- create_schedule_event (app.py lines 49 to 58). The Python function
mutates the caller-supplied dict in place (event_data[...] = ...); the
embedding returns the post-call dict together with the POST request. -/
def create_schedule_event (event_data : Dict) : Dict × Request :=
  let event_data := event_data.set "schedule_calendar_id" (Value.vInt SCHEDULE_CALENDAR_ID)
  (event_data,
   { method := Method.post
     url := API_BASE_URL ++ "/schedule_events"
     params := []
     body := some { data := [event_data], team_events := "base" } })

/-- update_schedule_event (app.py lines 60 to 69): same in-place calendar-id
write as create, then a PUT with the single-element data array. -/
def update_schedule_event (event_data : Dict) : Dict × Request :=
  let event_data := event_data.set "schedule_calendar_id" (Value.vInt SCHEDULE_CALENDAR_ID)
  (event_data,
   { method := Method.put
     url := API_BASE_URL ++ "/schedule_events"
     params := []
     body := some { data := [event_data], team_events := "base" } })

/-- delete_schedule_event (app.py lines 71 to 84): builds a fresh dict
x7bid, schedule_calendar_id, active: Falsex7d and issues a PUT. -/
def delete_schedule_event (event_id : Int) : Request :=
  let data : Dict := [("id", Value.vInt event_id),
                      ("schedule_calendar_id", Value.vInt SCHEDULE_CALENDAR_ID),
                      ("active", Value.vBool false)]
  { method := Method.put
    url := API_BASE_URL ++ "/schedule_events"
    params := []
    body := some { data := [data], team_events := "base" } }

/-- Value of a decimal digit string, most significant first. -/
def digitsToNat (cs : List Char) : Nat :=
  cs.foldl (fun a c => a * 10 + (c.toNat - 48)) 0

/-- Parse a nonempty all-digit character list, none otherwise. -/
def pyDigits (cs : List Char) : Option Nat :=
  if cs ≠ [] ∧ cs.all Char.isDigit then some (digitsToNat cs) else none

/-- Python str.strip(): drop leading and trailing whitespace characters. -/
def pyStrip (cs : List Char) : List Char :=
  ((cs.dropWhile Char.isWhitespace).reverse.dropWhile Char.isWhitespace).reverse

/-- Python int(s) on a string: surrounding whitespace stripped, an optional
sign, then decimal digits; none models the ValueError raise on any other
input. -/
def pyInt (s : String) : Option Int :=
  match pyStrip s.data with
  | [] => none
  | '+' :: cs => (pyDigits cs).map Int.ofNat
  | '-' :: cs => (pyDigits cs).map (fun n => -(Int.ofNat n))
  | cs => (pyDigits cs).map Int.ofNat

/-- Python comprehension from the Update page line 216:
[int(uid.strip()) for uid in s.split(",") if uid.strip()];
none models a ValueError raised by int() on some piece. -/
def parseUserIds (s : String) : Option (List Int) :=
  (((s.splitOn ",").map (fun p => String.mk (pyStrip p.data))).filter
    (fun p => p ≠ "")).mapM pyInt

/-- Form state of the Update Schedule page (app.py lines 190 to 201):
raw text inputs and the three checkboxes, whose defaults are all false. -/
structure UpdateForm where
  event_id : String
  new_title : String
  new_start : String
  new_end : String
  new_notes : String
  new_assigned_user_ids : String
  new_draft : Bool
  new_active : Bool
  new_all_day : Bool
  new_jobcode_id : String
  new_color : String
deriving DecidableEq, Repr

/-- Observable outcome of a page button handler: a locally surfaced
validation error (st.error before any call), an uncaught Python exception
(also before any request is issued), or an HTTP request handed to the
adapter. -/
inductive PageOutcome where
  | validationError (msg : String)
  | raised
  | sent (req : Request)
deriving DecidableEq, Repr

/-- The id entry of the update payload (app.py line 205):
int(event_id) if event_id else None; the outer none models the ValueError
raise of int() on a nonempty non-numeric string. -/
def updateIdValue (s : String) : Option Value :=
  if s = "" then some Value.vNone else (pyInt s).map Value.vInt

/-- The update_data dict built by the Update page handler (app.py lines 204
to 225), before the drop-None comprehension; none models an uncaught
ValueError from any int() conversion. -/
def updateData (f : UpdateForm) : Option Dict := do
  let idv ← updateIdValue f.event_id
  let d : Dict := [("id", idv)]
  let d := if f.new_title ≠ "" then d.set "title" (Value.vStr f.new_title) else d
  let d := if f.new_start ≠ "" then d.set "start" (Value.vStr f.new_start) else d
  let d := if f.new_end ≠ "" then d.set "end" (Value.vStr f.new_end) else d
  let d := if f.new_notes ≠ "" then d.set "notes" (Value.vStr f.new_notes) else d
  let d ← if f.new_assigned_user_ids ≠ "" then
            (parseUserIds f.new_assigned_user_ids).map
              (fun l => d.set "assigned_user_ids" (Value.vIntList l))
          else some d
  let d := d.set "draft" (Value.vBool f.new_draft)
  let d := d.set "active" (Value.vBool f.new_active)
  let d := d.set "all_day" (Value.vBool f.new_all_day)
  let d ← if f.new_jobcode_id ≠ "" then
            (pyInt f.new_jobcode_id).map (fun n => d.set "jobcode_id" (Value.vInt n))
          else some d
  let d := if f.new_color ≠ "" then d.set "color" (Value.vStr f.new_color) else d
  pure d

/-- The Update Schedule page button handler (app.py lines 203 to 226): build
update_data, drop None values, and always call update_schedule_event — the
page performs no local validation of the id. -/
def updatePage (f : UpdateForm) : PageOutcome :=
  match updateData f with
  | none => PageOutcome.raised
  | some d => PageOutcome.sent (update_schedule_event d.dropNone).2

/-- The Delete Schedule page button handler (app.py lines 242 to 246): an
empty id is rejected with st.error before any call; otherwise int(event_id)
is taken (raising on non-numeric input) and delete_schedule_event is
called. -/
def deletePage (event_id : String) : PageOutcome :=
  if event_id = "" then
    PageOutcome.validationError "Please provide the Event ID to deactivate."
  else
    match pyInt event_id with
    | none => PageOutcome.raised
    | some n => PageOutcome.sent (delete_schedule_event n)

/-- An ISO-8601 timestamp string carries sub-second precision exactly when it
contains a dot (dates use dashes, times colons, offsets plus or minus). -/
def hasSubSecond (s : String) : Bool := s.data.contains '.'

theorem Dict.lookup_set_self : ∀ (d : Dict) (k : String) (v : Value),
    Dict.lookup (Dict.set d k v) k = some v
  | [], k, v => by simp [Dict.set, Dict.lookup]
  | (k', v') :: rest, k, v => by
    by_cases h : k' = k
    · simp [Dict.set, Dict.lookup, h]
    · simp [Dict.set, Dict.lookup, h, Dict.lookup_set_self rest k v]

theorem Dict.lookup_set_ne : ∀ (d : Dict) (k k2 : String) (v : Value), k ≠ k2 →
    Dict.lookup (Dict.set d k v) k2 = Dict.lookup d k2
  | [], k, k2, v, h => by simp [Dict.set, Dict.lookup, h]
  | (k', v') :: rest, k, k2, v, h => by
    by_cases h' : k' = k
    · subst h'
      simp [Dict.set, Dict.lookup, h]
    · simp [Dict.set, Dict.lookup, h', Dict.lookup_set_ne rest k k2 v h]

/-- C3: for every input mapping, the outbound payload of create_event,
update_event and deactivate_event carries schedule_calendar_id = 563646 in
its single data element, overwriting any caller-supplied value for that
key. -/
theorem C3_calendar_id_always_fixed :
    ∀ (d : Dict) (n : Int),
      (∃ e, (create_schedule_event d).2.body = some ⟨[e], "base"⟩ ∧
            e.lookup "schedule_calendar_id" = some (Value.vInt 563646))
      ∧ (∃ e, (update_schedule_event d).2.body = some ⟨[e], "base"⟩ ∧
            e.lookup "schedule_calendar_id" = some (Value.vInt 563646))
      ∧ (∃ e, (delete_schedule_event n).body = some ⟨[e], "base"⟩ ∧
            e.lookup "schedule_calendar_id" = some (Value.vInt 563646)) := by
  intro d n
  refine ⟨⟨_, rfl, ?_⟩, ⟨_, rfl, ?_⟩, ⟨_, rfl, ?_⟩⟩
  · exact Dict.lookup_set_self d "schedule_calendar_id" (Value.vInt SCHEDULE_CALENDAR_ID)
  · exact Dict.lookup_set_self d "schedule_calendar_id" (Value.vInt SCHEDULE_CALENDAR_ID)
  · rfl

/-- C4: deactivate_event builds the same outbound request as update_event on
the mapping x7bid, active: falsex7d — same method, URL, query parameters and
team_events, and data arrays of one element each that are equal as JSON
objects (pointwise-equal key lookups; JSON objects are unordered), the
element being x7bid, schedule_calendar_id: 563646, active: falsex7d. -/
theorem C4_deactivate_equals_update_inactive :
    ∀ eid : Int,
      delete_schedule_event eid =
        { method := Method.put
          url := API_BASE_URL ++ "/schedule_events"
          params := []
          body := some ⟨[[("id", Value.vInt eid),
                          ("schedule_calendar_id", Value.vInt 563646),
                          ("active", Value.vBool false)]], "base"⟩ }
      ∧ ∃ d2,
          ((update_schedule_event [("id", Value.vInt eid),
              ("active", Value.vBool false)]).2) =
            { method := Method.put
              url := API_BASE_URL ++ "/schedule_events"
              params := []
              body := some ⟨[d2], "base"⟩ }
          ∧ ∀ k, Dict.lookup [("id", Value.vInt eid),
                    ("schedule_calendar_id", Value.vInt 563646),
                    ("active", Value.vBool false)] k = d2.lookup k := by
  intro eid
  refine ⟨rfl, _, rfl, ?_⟩
  intro k
  by_cases h1 : "id" = k
  · simp [Dict.lookup, Dict.set, h1]
  · by_cases h2 : "schedule_calendar_id" = k
    · subst h2
      simp [Dict.lookup, Dict.set, h1, SCHEDULE_CALENDAR_ID]
    · by_cases h3 : "active" = k
      · subst h3
        simp [Dict.lookup, Dict.set, h1]
      · simp [Dict.lookup, Dict.set, h1, h2, h3]

/-- C6: fetch returns the parsed JSON body exactly on HTTP status 200, and
on any other status returns the error outcome carrying the literal status
code and the raw response body, with no event data. -/
theorem C6_fetch_result_by_status :
    ∀ resp : HttpResponse,
      (resp.status_code = 200 →
        fetch_schedule_events_result resp = FetchResult.ok resp.json)
      ∧ (resp.status_code ≠ 200 →
        fetch_schedule_events_result resp =
          FetchResult.err resp.status_code resp.text) := by
  intro resp
  constructor <;> intro h <;> simp [fetch_schedule_events_result, h]

theorem C6_fetch_result_by_status_witness :
    fetch_schedule_events_result ⟨200, Json.null, "ok"⟩ = FetchResult.ok Json.null
    ∧ fetch_schedule_events_result ⟨404, Json.null, "bad"⟩ =
        FetchResult.err 404 "bad" :=
  ⟨(C6_fetch_result_by_status ⟨200, Json.null, "ok"⟩).1 rfl,
   (C6_fetch_result_by_status ⟨404, Json.null, "bad"⟩).2 (by decide)⟩

/-- C7: every fetch issues a GET on schedule_events whose query parameters
are exactly start, end, schedule_calendar_ids = "563646" and
supplemental_data = "yes". -/
theorem C7_fetch_query_params_exact :
    ∀ s e : String,
      fetch_schedule_events_request s e =
        { method := Method.get
          url := "https://rest.tsheets.com/api/v1/schedule_events"
          params := [("start", s), ("end", e),
                     ("schedule_calendar_ids", "563646"),
                     ("supplemental_data", "yes")]
          body := none } := by
  intro s e
  rfl

/-- C9: update and deactivate both issue a PUT to the schedule_events URL
whose body is exactly a payload of a single-element data array together with
team_events = "base". -/
theorem C9_put_body_shape :
    ∀ (d : Dict) (n : Int),
      ((update_schedule_event d).2.method = Method.put
       ∧ (update_schedule_event d).2.url = API_BASE_URL ++ "/schedule_events"
       ∧ ∃ e, (update_schedule_event d).2.body = some ⟨[e], "base"⟩)
      ∧ ((delete_schedule_event n).method = Method.put
       ∧ (delete_schedule_event n).url = API_BASE_URL ++ "/schedule_events"
       ∧ ∃ e, (delete_schedule_event n).body = some ⟨[e], "base"⟩) := by
  intro d n
  exact ⟨⟨rfl, rfl, _, rfl⟩, ⟨rfl, rfl, _, rfl⟩⟩

/-- C10: create_schedule_event and update_schedule_event write the fixed
calendar id into the caller-supplied dictionary itself (in-place mutation,
modelled by the returned post-call dict): afterwards the mapping binds
schedule_calendar_id to 563646 and every other key is unchanged. -/
theorem C10_caller_dict_mutated :
    ∀ d : Dict,
      (create_schedule_event d).1.lookup "schedule_calendar_id" =
          some (Value.vInt 563646)
      ∧ (update_schedule_event d).1.lookup "schedule_calendar_id" =
          some (Value.vInt 563646)
      ∧ ∀ k, k ≠ "schedule_calendar_id" →
          ((create_schedule_event d).1.lookup k = d.lookup k
           ∧ (update_schedule_event d).1.lookup k = d.lookup k) := by
  intro d
  refine ⟨Dict.lookup_set_self d _ _, Dict.lookup_set_self d _ _, ?_⟩
  intro k hk
  constructor <;>
    exact Dict.lookup_set_ne d "schedule_calendar_id" k
      (Value.vInt SCHEDULE_CALENDAR_ID) (fun h => hk h.symm)

theorem C10_caller_dict_mutated_witness :
    (create_schedule_event []).1.lookup "schedule_calendar_id" =
        some (Value.vInt 563646)
    ∧ (create_schedule_event []).1.lookup "title" = Dict.lookup [] "title" :=
  ⟨(C10_caller_dict_mutated []).1,
   ((C10_caller_dict_mutated []).2.2 "title" (by decide)).1⟩

/-- Claim C1 as stated is false on the Update page: with an empty event-id
field (all other fields at their defaults) the handler does not reject
locally — it still issues the PUT, with the id key simply dropped from the
payload by the None filter. -/
theorem C1_counterexample :
    updatePage ⟨"", "", "", "", "", "", false, false, false, "", ""⟩ =
      PageOutcome.sent
        { method := Method.put
          url := API_BASE_URL ++ "/schedule_events"
          params := []
          body := some ⟨[[("draft", Value.vBool false),
                          ("active", Value.vBool false),
                          ("all_day", Value.vBool false),
                          ("schedule_calendar_id", Value.vInt 563646)]], "base"⟩ } := by
  rfl

/-- C1 amended: the Delete page rejects a missing id locally with a
validation error and no request, but the Update page never emits a local
validation error — with an empty id field it still issues the PUT, whose
single data element lacks the id key. -/
theorem C1_update_no_local_validation :
    deletePage "" =
      PageOutcome.validationError "Please provide the Event ID to deactivate."
    ∧ (∀ f msg, updatePage f ≠ PageOutcome.validationError msg)
    ∧ (∀ b1 b2 b3 : Bool,
        updatePage ⟨"", "", "", "", "", "", b1, b2, b3, "", ""⟩ =
          PageOutcome.sent
            { method := Method.put
              url := API_BASE_URL ++ "/schedule_events"
              params := []
              body := some ⟨[[("draft", Value.vBool b1),
                              ("active", Value.vBool b2),
                              ("all_day", Value.vBool b3),
                              ("schedule_calendar_id", Value.vInt 563646)]],
                            "base"⟩ }) := by
  refine ⟨rfl, ?_, ?_⟩
  · intro f msg
    cases hd : updateData f <;> simp [updatePage, hd]
  · intro b1 b2 b3
    rfl

theorem C1_update_no_local_validation_witness :
    deletePage "" =
      PageOutcome.validationError "Please provide the Event ID to deactivate."
    ∧ updatePage ⟨"7", "", "", "", "", "", false, false, false, "", ""⟩ ≠
        PageOutcome.validationError "x" :=
  ⟨C1_update_no_local_validation.1,
   C1_update_no_local_validation.2.1
     ⟨"7", "", "", "", "", "", false, false, false, "", ""⟩ "x"⟩

/-- Claim C2 as stated is false: the adapter transmits the caller-supplied
start timestamp verbatim, so an input carrying a microsecond component
reaches the outbound query parameters with its sub-second precision
intact. -/
theorem C2_counterexample :
    qlookup (fetch_schedule_events_request "2025-02-21T00:00:00.123456+00:00"
        "2025-03-30T23:59:59+00:00").params "start"
      = some "2025-02-21T00:00:00.123456+00:00"
    ∧ hasSubSecond "2025-02-21T00:00:00.123456+00:00" = true := by
  exact ⟨rfl, by decide⟩

/-- C2 amended: the adapter performs no truncation — timestamp strings are
transmitted verbatim: fetch passes start and end through to the query
parameters unchanged, and create and update forward the start and end
entries of the caller-supplied event dict unchanged into the single payload
data element. -/
theorem C2_timestamps_transmitted_verbatim :
    ∀ (s e : String) (d : Dict),
      qlookup (fetch_schedule_events_request s e).params "start" = some s
      ∧ qlookup (fetch_schedule_events_request s e).params "end" = some e
      ∧ (∃ el, (create_schedule_event d).2.body = some ⟨[el], "base"⟩
          ∧ el.lookup "start" = d.lookup "start"
          ∧ el.lookup "end" = d.lookup "end")
      ∧ (∃ el, (update_schedule_event d).2.body = some ⟨[el], "base"⟩
          ∧ el.lookup "start" = d.lookup "start"
          ∧ el.lookup "end" = d.lookup "end") := by
  intro s e d
  refine ⟨rfl, rfl, ⟨_, rfl, ?_, ?_⟩, ⟨_, rfl, ?_, ?_⟩⟩ <;>
    exact Dict.lookup_set_ne d "schedule_calendar_id" _
      (Value.vInt SCHEDULE_CALENDAR_ID) (by decide)

/-- C5: an update supplying only the event id (all optional text fields
empty, the three checkboxes at whatever state the form holds) sends a
payload whose single data element has exactly the keys id, draft, active,
all_day and schedule_calendar_id — the boolean flags are always included. -/
theorem C5_minimal_update_payload :
    ∀ (s : String) (n : Int) (b1 b2 b3 : Bool), pyInt s = some n →
      updatePage ⟨s, "", "", "", "", "", b1, b2, b3, "", ""⟩ =
        PageOutcome.sent
          { method := Method.put
            url := API_BASE_URL ++ "/schedule_events"
            params := []
            body := some ⟨[[("id", Value.vInt n),
                            ("draft", Value.vBool b1),
                            ("active", Value.vBool b2),
                            ("all_day", Value.vBool b3),
                            ("schedule_calendar_id", Value.vInt 563646)]],
                          "base"⟩ } := by
  intro s n b1 b2 b3 h
  have hs : s ≠ "" := by
    intro he
    rw [he, show pyInt "" = none from rfl] at h
    cases h
  simp [updatePage, updateData, updateIdValue, hs, h, Dict.set, Dict.dropNone,
        update_schedule_event, SCHEDULE_CALENDAR_ID, API_BASE_URL]

theorem C5_minimal_update_payload_witness :
    updatePage ⟨"42", "", "", "", "", "", false, false, false, "", ""⟩ =
      PageOutcome.sent
        { method := Method.put
          url := API_BASE_URL ++ "/schedule_events"
          params := []
          body := some ⟨[[("id", Value.vInt 42),
                          ("draft", Value.vBool false),
                          ("active", Value.vBool false),
                          ("all_day", Value.vBool false),
                          ("schedule_calendar_id", Value.vInt 563646)]],
                        "base"⟩ } :=
  C5_minimal_update_payload "42" 42 false false false (by decide)

/-- Claim C8 as stated is false for malformed ids: a nonempty non-numeric
event id makes int() raise an uncaught ValueError instead of surfacing a
validation error (no request is issued either way). -/
theorem C8_counterexample :
    deletePage "abc" = PageOutcome.raised := by
  rfl

/-- C8 amended: before any network request the Delete page rejects a missing
(empty) event id with a validation error; a nonempty non-numeric id makes
the int conversion raise, still before any request; a numeric id issues the
deactivation request. -/
theorem C8_delete_local_validation :
    deletePage "" =
      PageOutcome.validationError "Please provide the Event ID to deactivate."
    ∧ (∀ s, s ≠ "" → pyInt s = none → deletePage s = PageOutcome.raised)
    ∧ (∀ s n, pyInt s = some n →
        deletePage s = PageOutcome.sent (delete_schedule_event n)) := by
  refine ⟨rfl, ?_, ?_⟩
  · intro s hs h
    simp [deletePage, hs, h]
  · intro s n h
    have hs : s ≠ "" := by
      intro he
      rw [he, show pyInt "" = none from rfl] at h
      cases h
    simp [deletePage, hs, h]

theorem C8_delete_local_validation_witness :
    deletePage "xy" = PageOutcome.raised
    ∧ deletePage "42" = PageOutcome.sent (delete_schedule_event 42) :=
  ⟨C8_delete_local_validation.2.1 "xy" (by decide) (by decide),
   C8_delete_local_validation.2.2 "42" 42 (by decide)⟩

end Timeto
